import Mathlib

/-!
Verification of the Sphinx documentation configuration module
`docs/sphinx/conf.py` of the nix-model-repo repository.

The module is straight-line Python: two imports, a sequence of
module-level assignments of literal values, and one function
definition (`setup`).  We embed the module as a list of statements
over a small Python-value datatype, evaluate it with explicit state
passing (the interpreter state carries `sys.path` so that frame
properties about it can be stated), and embed the `setup` function as
a state transformer on an application handle that records the method
calls performed on it.
-/

namespace SphinxConf

/-- Python runtime values as they occur in the configuration module:
strings, booleans, integers, `None`, lists, tuples, string-keyed
dictionaries, function objects (recorded with their arity) and module
objects produced by `import`. -/
inductive PyVal where
  | str (s : String)
  | bool (b : Bool)
  | int (n : Int)
  | pynone
  | list (xs : List PyVal)
  | tuple (xs : List PyVal)
  | dict (entries : List (String × PyVal))
  | func (arity : Nat)
  | module (name : String)

/-- Expressions appearing at module level in `conf.py`: every
right-hand side there is a literal; a name reference is included so
that evaluation has a genuine `NameError` failure mode and so that
uses of imported names can be detected. -/
inductive Expr where
  | lit (v : PyVal)
  | name (x : String)

/-- Module-level statements of `conf.py`: an `import`, an assignment
of an expression to a module-level name, or a `def` (recorded with the
arity of the defined function; the body of the single `def` in the
file is embedded separately as `setup`). -/
inductive Stmt where
  | importMod (name : String)
  | assign (name : String) (e : Expr)
  | defFun (name : String) (arity : Nat)

/-- Module namespaces: association lists from names to values, most
recent binding first (a later assignment shadows an earlier one, as in
a Python module dictionary). -/
abbrev Env := List (String × PyVal)

/-- Look a name up in a namespace, preferring the most recent binding. -/
def lookupEnv (x : String) : Env → Option PyVal
  | [] => Option.none
  | (y, v) :: rest => if y = x then some v else lookupEnv x rest

/-- Interpreter state visible to the module: the `sys.path` list and
the module's own namespace. -/
structure PyState where
  sysPath : List String
  env : Env

/-- Evaluate an expression; an unbound name raises `NameError`. -/
def evalExpr (env : Env) : Expr → Except String PyVal
  | .lit v => .ok v
  | .name x =>
    match lookupEnv x env with
    | some v => .ok v
    | Option.none => .error (String.append "NameError: " x)

/-- Evaluate a single statement.  An import binds a module object, an
assignment evaluates its right-hand side and binds the result, a `def`
binds a function object.  Only the module namespace is touched; the
`sys.path` component is carried through unchanged because no statement
of `conf.py` modifies it. -/
def evalStmt (st : PyState) : Stmt → Except String PyState
  | .importMod m => .ok { st with env := (m, PyVal.module m) :: st.env }
  | .assign x e =>
    match evalExpr st.env e with
    | .ok v => .ok { st with env := (x, v) :: st.env }
    | .error msg => .error msg
  | .defFun f arity => .ok { st with env := (f, PyVal.func arity) :: st.env }

/-- Evaluate a statement list from top to bottom, stopping at the
first error. -/
def evalStmts (st : PyState) : List Stmt → Except String PyState
  | [] => .ok st
  | s :: rest =>
    match evalStmt st s with
    | .ok st2 => evalStmts st2 rest
    | .error msg => .error msg

/-- The statements of `docs/sphinx/conf.py`, in source order. -/
def confStmts : List Stmt := [
  Stmt.importMod "os",
  Stmt.importMod "sys",
  Stmt.assign "project" (Expr.lit (PyVal.str "Nix Model Repo")),
  Stmt.assign "copyright" (Expr.lit (PyVal.str "2024, Nix Model Repo Contributors")),
  Stmt.assign "author" (Expr.lit (PyVal.str "Nix Model Repo Contributors")),
  Stmt.assign "release" (Expr.lit (PyVal.str "0.1.0")),
  Stmt.assign "version" (Expr.lit (PyVal.str "0.1")),
  Stmt.assign "extensions" (Expr.lit (PyVal.list [
    PyVal.str "sphinx.ext.autodoc",
    PyVal.str "sphinx.ext.viewcode",
    PyVal.str "sphinx.ext.intersphinx",
    PyVal.str "sphinx.ext.todo",
    PyVal.str "sphinx_copybutton",
    PyVal.str "myst_parser"])),
  Stmt.assign "templates_path" (Expr.lit (PyVal.list [PyVal.str "_templates"])),
  Stmt.assign "exclude_patterns" (Expr.lit (PyVal.list [
    PyVal.str "_build", PyVal.str "Thumbs.db", PyVal.str ".DS_Store"])),
  Stmt.assign "source_suffix" (Expr.lit (PyVal.dict [
    (".rst", PyVal.str "restructuredtext"),
    (".md", PyVal.str "markdown")])),
  Stmt.assign "master_doc" (Expr.lit (PyVal.str "index")),
  Stmt.assign "html_theme" (Expr.lit (PyVal.str "furo")),
  Stmt.assign "html_static_path" (Expr.lit (PyVal.list [PyVal.str "_static"])),
  Stmt.assign "html_theme_options" (Expr.lit (PyVal.dict [
    ("light_css_variables", PyVal.dict [
      ("color-brand-primary", PyVal.str "#7C3AED"),
      ("color-brand-content", PyVal.str "#7C3AED")]),
    ("dark_css_variables", PyVal.dict [
      ("color-brand-primary", PyVal.str "#A78BFA"),
      ("color-brand-content", PyVal.str "#A78BFA")]),
    ("sidebar_hide_name", PyVal.bool false),
    ("navigation_with_keys", PyVal.bool true)])),
  Stmt.assign "html_title" (Expr.lit (PyVal.str "Nix Model Repo")),
  Stmt.assign "html_short_title" (Expr.lit (PyVal.str "nix-model-repo")),
  Stmt.assign "intersphinx_mapping" (Expr.lit (PyVal.dict [
    ("python", PyVal.tuple [PyVal.str "https://docs.python.org/3", PyVal.pynone])])),
  Stmt.assign "todo_include_todos" (Expr.lit (PyVal.bool true)),
  Stmt.assign "myst_enable_extensions" (Expr.lit (PyVal.list [
    PyVal.str "colon_fence",
    PyVal.str "deflist",
    PyVal.str "fieldlist",
    PyVal.str "tasklist"])),
  Stmt.assign "myst_heading_anchors" (Expr.lit (PyVal.int 3)),
  Stmt.defFun "setup" 1]

/-- Evaluate the whole configuration module starting from an empty
module namespace and the given initial `sys.path`. -/
def evalConf (sysPath : List String) : Except String PyState :=
  evalStmts { sysPath := sysPath, env := [] } confStmts

/-- The module namespace after a successful evaluation (empty if
evaluation failed, which the theorems below rule out). -/
def confEnv : Env :=
  match evalConf [] with
  | .ok st => st.env
  | .error _ => []

/-- Whether an evaluation finished without raising. -/
def evalOk : Except String PyState → Bool
  | .ok _ => true
  | .error _ => false

/-- The module-namespace component of an evaluation result. -/
def stateEnv : Except String PyState → Option Env
  | .ok st => some st.env
  | .error _ => Option.none

/-- The `sys.path` component of an evaluation result. -/
def statePath : Except String PyState → Option (List String)
  | .ok st => some st.sysPath
  | .error _ => Option.none

/-- A value is a string. -/
def PyVal.isStr : PyVal → Bool
  | .str _ => true
  | _ => false

/-- A value is a list all of whose elements are strings. -/
def PyVal.isListOfStr : PyVal → Bool
  | .list xs => xs.all PyVal.isStr
  | _ => false

/-- A value is a dictionary (mapping). -/
def PyVal.isDict : PyVal → Bool
  | .dict _ => true
  | _ => false

/-- The keys of a dictionary value, in insertion order. -/
def PyVal.dictKeys : PyVal → List String
  | .dict entries => entries.map Prod.fst
  | _ => []

/-- Look a key up in a dictionary value. -/
def PyVal.dictLookup (v : PyVal) (k : String) : Option PyVal :=
  match v with
  | .dict entries => lookupEnv k entries
  | _ => Option.none

/-- A required configuration field is bound in the final namespace and
its value passes the given type check. -/
def fieldHasType (x : String) (check : PyVal → Bool) : Bool :=
  match lookupEnv x confEnv with
  | some v => check v
  | Option.none => false

/-- The name bound by a statement. -/
def Stmt.boundName : Stmt → String
  | .importMod m => m
  | .assign x _ => x
  | .defFun f _ => f

/-- All names bound during evaluation of the module, in order. -/
def confBoundNames : List String := confStmts.map Stmt.boundName

/-- The names referenced (read) by an expression. -/
def Expr.refNames : Expr → List String
  | .lit _ => []
  | .name x => [x]

/-- The module-level names referenced (read) by a statement.  The body
of the single `def` references only its parameter `app`, never a
module-level name, so a `def` reads nothing from the namespace. -/
def Stmt.refNames : Stmt → List String
  | .assign _ e => e.refNames
  | _ => []

/-- The statement does not read the given name. -/
def stmtAvoids (bad : String) (s : Stmt) : Bool :=
  !(s.refNames.contains bad)

/-- Method calls performed on the Sphinx application handle.  The only
method `conf.py` ever invokes on the handle is `add_css_file`. -/
inductive AppCall where
  | add_css_file (filename : String)

/-- The Sphinx application handle, abstracted as the trace of method
calls performed on it. -/
structure App where
  calls : List AppCall

/-- Invoking `app.add_css_file(filename)` appends that call to the
handle's trace. -/
def App.add_css_file (app : App) (filename : String) : App :=
  { app with calls := app.calls ++ [AppCall.add_css_file filename] }

/-- The `setup` function of `conf.py`:

    def setup(app):
        app.add_css_file('custom.css')

It receives the interpreter state and the application handle, performs
the single method call of its body, and — having no `return`
statement — returns Python `None` (modelled as `Option.none`). -/
def setup (st : PyState) (app : App) : PyState × App × Option PyVal :=
  (st, app.add_css_file "custom.css", Option.none)

/-- Claim C1: for every application object `app` (and any interpreter
state), `setup app` performs exactly one registration — the single call
`app.add_css_file('custom.css')` appended to the handle's call trace —
leaves the interpreter state (hence every module-level configuration
variable) unchanged, invokes no other method of `app`, and returns
`None`. -/
theorem setup_single_registration (st : PyState) (app : App) :
    setup st app =
      (st, { calls := app.calls ++ [AppCall.add_css_file "custom.css"] }, Option.none) := rfl

/-- Claim C2: evaluating the configuration module from top to bottom
raises no error (for any initial `sys.path`), and afterwards every
required configuration field is bound with the correct type: `project`,
`copyright`, `author`, `version`, `release` and `html_theme` are
strings, `extensions` is a list of strings, and `html_theme_options`,
`source_suffix` and `intersphinx_mapping` are mappings. -/
theorem conf_evaluates_without_error_and_required_fields_typed :
    (∀ p : List String, evalOk (evalConf p) = true) ∧
    fieldHasType "project" PyVal.isStr = true ∧
    fieldHasType "copyright" PyVal.isStr = true ∧
    fieldHasType "author" PyVal.isStr = true ∧
    fieldHasType "version" PyVal.isStr = true ∧
    fieldHasType "release" PyVal.isStr = true ∧
    fieldHasType "extensions" PyVal.isListOfStr = true ∧
    fieldHasType "html_theme" PyVal.isStr = true ∧
    fieldHasType "html_theme_options" PyVal.isDict = true ∧
    fieldHasType "source_suffix" PyVal.isDict = true ∧
    fieldHasType "intersphinx_mapping" PyVal.isDict = true :=
  ⟨fun _ => rfl, rfl, rfl, rfl, rfl, rfl, rfl, rfl, rfl, rfl, rfl⟩

/-- Claim C3: after module evaluation the namespace provides every
named configuration variable of the external tool's contract —
`project`, `author`, `version`, the extension list, the theme name,
the theme options, the source-suffix mapping and the intersphinx
mapping are all bound — and additionally binds `setup` to a function
object receiving exactly one argument. -/
theorem conf_provides_contract_variables_and_setup_hook :
    (lookupEnv "project" confEnv).isSome = true ∧
    (lookupEnv "author" confEnv).isSome = true ∧
    (lookupEnv "version" confEnv).isSome = true ∧
    (lookupEnv "extensions" confEnv).isSome = true ∧
    (lookupEnv "html_theme" confEnv).isSome = true ∧
    (lookupEnv "html_theme_options" confEnv).isSome = true ∧
    (lookupEnv "source_suffix" confEnv).isSome = true ∧
    (lookupEnv "intersphinx_mapping" confEnv).isSome = true ∧
    lookupEnv "setup" confEnv = some (PyVal.func 1) :=
  ⟨rfl, rfl, rfl, rfl, rfl, rfl, rfl, rfl, rfl⟩

/-- Claim C4: the project-information fields are scalar strings with
exactly the fixed values given in the source. -/
theorem conf_project_information_values :
    lookupEnv "project" confEnv = some (PyVal.str "Nix Model Repo") ∧
    lookupEnv "copyright" confEnv = some (PyVal.str "2024, Nix Model Repo Contributors") ∧
    lookupEnv "author" confEnv = some (PyVal.str "Nix Model Repo Contributors") ∧
    lookupEnv "release" confEnv = some (PyVal.str "0.1.0") ∧
    lookupEnv "version" confEnv = some (PyVal.str "0.1") :=
  ⟨rfl, rfl, rfl, rfl, rfl⟩

/-- Claim C5: the three mappings have exactly their fixed shapes:
`source_suffix` maps `.rst` to restructuredtext and `.md` to markdown
and nothing else; `intersphinx_mapping` maps the single key `python`
to the pair of the Python documentation URL and `None`; and
`html_theme_options` has exactly the keys `light_css_variables`,
`dark_css_variables`, `sidebar_hide_name` (bound to `False`) and
`navigation_with_keys` (bound to `True`). -/
theorem conf_mapping_shapes :
    lookupEnv "source_suffix" confEnv = some (PyVal.dict [
      (".rst", PyVal.str "restructuredtext"),
      (".md", PyVal.str "markdown")]) ∧
    lookupEnv "intersphinx_mapping" confEnv = some (PyVal.dict [
      ("python", PyVal.tuple [PyVal.str "https://docs.python.org/3", PyVal.pynone])]) ∧
    (∃ v, lookupEnv "html_theme_options" confEnv = some v ∧
      v.dictKeys = ["light_css_variables", "dark_css_variables",
        "sidebar_hide_name", "navigation_with_keys"] ∧
      v.dictLookup "sidebar_hide_name" = some (PyVal.bool false) ∧
      v.dictLookup "navigation_with_keys" = some (PyVal.bool true)) :=
  ⟨rfl, rfl, ⟨_, rfl, rfl, rfl, rfl⟩⟩

/-- Claim C6: the extension identifier lists are ordered lists of
strings with exactly the listed elements in exactly the source order. -/
theorem conf_extension_lists :
    lookupEnv "extensions" confEnv = some (PyVal.list [
      PyVal.str "sphinx.ext.autodoc",
      PyVal.str "sphinx.ext.viewcode",
      PyVal.str "sphinx.ext.intersphinx",
      PyVal.str "sphinx.ext.todo",
      PyVal.str "sphinx_copybutton",
      PyVal.str "myst_parser"]) ∧
    lookupEnv "myst_enable_extensions" confEnv = some (PyVal.list [
      PyVal.str "colon_fence",
      PyVal.str "deflist",
      PyVal.str "fieldlist",
      PyVal.str "tasklist"]) :=
  ⟨rfl, rfl⟩

/-- Claim C7: module evaluation is a deterministic straight-line
sequence of assignments: every name is bound by exactly one statement
(the list of bound names has no duplicate), the resulting namespace is
independent of the initial interpreter state, and `setup` leaves the
interpreter state — hence every module-level binding — unchanged. -/
theorem conf_assign_once_deterministic :
    confBoundNames.Nodup ∧
    (∀ p₁ p₂ : List String, stateEnv (evalConf p₁) = stateEnv (evalConf p₂)) ∧
    (∀ (st : PyState) (app : App), (setup st app).1 = st) :=
  ⟨by decide, fun _ _ => rfl, fun _ _ => rfl⟩

/-- Claim C8: the short version string is an initial segment of the
full release string: for the bound values `version = "0.1"` and
`release = "0.1.0"`, the version string is a prefix of the release
string (`String.IsPrefix version release`, the propositional form of
`release.startsWith version`). -/
theorem conf_release_extends_version :
    ∃ r v : String,
      lookupEnv "release" confEnv = some (PyVal.str r) ∧
      lookupEnv "version" confEnv = some (PyVal.str v) ∧
      String.IsPrefix v r :=
  ⟨"0.1.0", "0.1", rfl, rfl, ⟨['.', '0'], by decide⟩⟩

/-- Claim C9: for every application object (and any interpreter state),
`setup` returns `None` — it has no return statement, so the hook never
supplies extension metadata back to the caller. -/
theorem setup_returns_none (st : PyState) (app : App) :
    (setup st app).2.2 = Option.none := rfl

/-- Claim C10: the module imports `os` and `sys` as its first two
statements, but no statement ever reads either name, and evaluation
leaves `sys.path` unchanged for every initial value — importing the
module has no effect outside binding its own module-level names. -/
theorem conf_imports_unused_and_sysPath_unchanged :
    confStmts.get? 0 = some (Stmt.importMod "os") ∧
    confStmts.get? 1 = some (Stmt.importMod "sys") ∧
    confStmts.all (stmtAvoids "os") = true ∧
    confStmts.all (stmtAvoids "sys") = true ∧
    (∀ p : List String, statePath (evalConf p) = some p) :=
  ⟨rfl, rfl, rfl, rfl, fun _ => rfl⟩

end SphinxConf
